import Mathlib

/- Shallow embedding of the cv-parser-frontend React client: the upload
   pipeline (src/components/FileUpload.tsx), the term-set builder
   (src/components/MultiSelectSearch.tsx) and the search / list-sync
   orchestrator (src/components/SearchPage.tsx).  JavaScript string
   primitives are modelled on `List Char` so that everything evaluates. -/

namespace CVFrontend

/-- Model of JavaScript `String.prototype.toLowerCase` (character-wise). -/
def lowerString (s : String) : String :=
  String.mk (s.data.map Char.toLower)

/-- Model of JavaScript `String.prototype.trim`: strip whitespace from both ends. -/
def trimString (s : String) : String :=
  String.mk (((s.data.dropWhile Char.isWhitespace).reverse.dropWhile Char.isWhitespace).reverse)

/-- Model of JavaScript `str.split(sep)` for a single-character separator:
returns the list of chunks between occurrences of the separator (never empty). -/
def splitOnChar (c : Char) : List Char → List (List Char)
  | [] => [[]]
  | a :: rest =>
    match splitOnChar c rest with
    | [] => [[a]]
    | s :: ss => if a = c then [] :: s :: ss else (a :: s) :: ss

/-- Model of JavaScript `opt || fallback` for an optional string: the empty
string is falsy, so it also falls through to the fallback. -/
def jsOr (detail : Option String) (fallback : String) : String :=
  match detail with
  | some d => if d = "" then fallback else d
  | none => fallback

/- ---------------- FileUpload.tsx ---------------- -/

/-- A raw browser `File`; the component only reads `name` and `size`. -/
structure JsFile where
  name : String
  size : Nat
deriving DecidableEq, Repr

/-- Source `const acceptedTypes = ['.pdf', '.doc', '.docx']` (FileUpload.tsx line 17). -/
def acceptedTypes : List String := [".pdf", ".doc", ".docx"]

/-- Source `const maxFileSize = 10 * 1024 * 1024` (FileUpload.tsx line 18). -/
def maxFileSize : Nat := 10 * 1024 * 1024

/-- Source `'.' + file.name.split('.').pop()?.toLowerCase()` (FileUpload.tsx line 21). -/
def fileExtension (name : String) : String :=
  "." ++ lowerString (String.mk ((splitOnChar '.' name.data).getLastD []))

/-- Function `validateFile` (FileUpload.tsx lines 20-31): reject an extension outside
`acceptedTypes`, reject a size strictly above `maxFileSize`, else accept. -/
def validateFile (file : JsFile) : Bool :=
  if !(acceptedTypes.contains (fileExtension file.name)) then false
  else if file.size > maxFileSize then false
  else true

/-- Status union of an `UploadedFile` (FileUpload.tsx line 7). -/
inductive UploadStatus
  | uploading
  | success
  | error
deriving DecidableEq, Repr

/-- The `UploadedFile` record (FileUpload.tsx lines 4-11); the parsed backend
response is opaque to the component, modelled as an optional string. -/
structure UploadedFile where
  id : String
  file : JsFile
  status : UploadStatus
  progress : ℚ
  parsedData : Option String
  errorMessage : Option String
deriving DecidableEq, Repr

/-- The literal a fresh `UploadedFile` is built from in `handleFiles`
(FileUpload.tsx lines 112-117). -/
def mkUploadedFile (id : String) (file : JsFile) : UploadedFile :=
  { id := id, file := file, status := UploadStatus.uploading, progress := 0,
    parsedData := none, errorMessage := none }

/-- Function `handleFiles` (FileUpload.tsx lines 109-125): filter the batch through
`validateFile`, append one fresh `UploadedFile` per accepted file to the
collection, and start one upload per new item.  The id generator
(`Date.now() + Math.random().toString()`) is abstracted as `fresh`; the
second component is the list of `(id, file)` uploads started. -/
def handleFiles (fresh : Nat → String) (prev : List UploadedFile) (fileList : List JsFile) :
    List UploadedFile × List (String × JsFile) :=
  let validFiles := fileList.filter validateFile
  let newFiles := validFiles.enum.map (fun p => mkUploadedFile (fresh p.1) p.2)
  (prev ++ newFiles, newFiles.map (fun u => (u.id, u.file)))

/-- The progress-tick handler of `uploadToBackend` (FileUpload.tsx lines 40-47):
`prev.map(f => f.id === fileId ? { ...f, progress } : f)`. -/
def progressTick (files : List UploadedFile) (fileId : String) (progress : ℚ) :
    List UploadedFile :=
  files.map (fun f => if f.id = fileId then { f with progress := progress } else f)

/- Demo inputs used by witnesses. -/

def demoFresh : Nat → String := fun n => toString n

def fGood : JsFile := { name := "cv.pdf", size := 5000 }

def fBadType : JsFile := { name := "cv.exe", size := 5000 }

def fTooBig : JsFile := { name := "big.pdf", size := 10 * 1024 * 1024 + 1 }

def demoItemA : UploadedFile := mkUploadedFile "a" fGood

def demoItemB : UploadedFile :=
  { mkUploadedFile "b" fTooBig with status := UploadStatus.success }

/-- Claim C10: `validateFile` lowercases the extension before the membership
test (a file named `resume.PDF` is accepted) and the size check is a strict
greater-than, so a file of exactly 10*1024*1024 bytes is accepted. -/
theorem validateFile_characterization :
    (∀ f : JsFile, validateFile f = true ↔
      (acceptedTypes.contains (fileExtension f.name) = true ∧ f.size ≤ maxFileSize))
  ∧ fileExtension "resume.PDF" = ".pdf"
  ∧ validateFile { name := "resume.PDF", size := 10 * 1024 * 1024 } = true
  ∧ validateFile { name := "resume.pdf", size := 10 * 1024 * 1024 + 1 } = false := by
  refine ⟨fun f => ?_, by decide, by decide, by decide⟩
  unfold validateFile
  by_cases h : acceptedTypes.contains (fileExtension f.name) = true
  · simp [h]
  · simp [h]

/-- Claim C3: `handleFiles` creates no `UploadedFile` and starts no upload for
a file rejected by `validateFile`; every accepted file yields exactly one fresh
item, appended after the existing collection in submission order, with one
started upload per new item. -/
theorem handleFiles_items (fresh : Nat → String) (prev : List UploadedFile)
    (fileList : List JsFile) :
    (handleFiles fresh prev fileList).1.take prev.length = prev
  ∧ ((handleFiles fresh prev fileList).1.drop prev.length).map UploadedFile.file
      = fileList.filter validateFile
  ∧ (handleFiles fresh prev fileList).2.map Prod.snd = fileList.filter validateFile
  ∧ (∀ f : JsFile, validateFile f = false →
      ∀ u ∈ (handleFiles fresh prev fileList).1.drop prev.length, u.file ≠ f)
  ∧ (∀ u ∈ (handleFiles fresh prev fileList).1.drop prev.length,
      u.status = UploadStatus.uploading ∧ u.progress = 0) := by
  have hmap : ∀ l : List JsFile,
      ((l.enum.map (fun p => mkUploadedFile (fresh p.1) p.2)).map UploadedFile.file) = l := by
    intro l
    rw [List.map_map]
    have hcomp : (UploadedFile.file ∘ fun p : Nat × JsFile => mkUploadedFile (fresh p.1) p.2)
        = Prod.snd := by
      funext p
      rfl
    rw [hcomp, List.enum_map_snd]
  have hdrop : (handleFiles fresh prev fileList).1.drop prev.length
      = (fileList.filter validateFile).enum.map (fun p => mkUploadedFile (fresh p.1) p.2) := by
    simp [handleFiles, List.drop_left]
  have h2 : ((handleFiles fresh prev fileList).1.drop prev.length).map UploadedFile.file
      = fileList.filter validateFile := by
    rw [hdrop, hmap]
  refine ⟨?_, h2, ?_, ?_, ?_⟩
  · simp [handleFiles, List.take_left]
  · show (((fileList.filter validateFile).enum.map
        (fun p => mkUploadedFile (fresh p.1) p.2)).map (fun u => (u.id, u.file))).map Prod.snd
      = fileList.filter validateFile
    rw [List.map_map]
    have hcomp : (Prod.snd ∘ fun u : UploadedFile => (u.id, u.file)) = UploadedFile.file := by
      funext u
      rfl
    rw [hcomp, hmap]
  · intro f hf u hu
    have : u.file ∈ fileList.filter validateFile := by
      rw [← h2]
      exact List.mem_map_of_mem UploadedFile.file hu
    have hv : validateFile u.file = true := (List.mem_filter.mp this).2
    intro he
    rw [he, hf] at hv
    exact Bool.false_ne_true hv
  · intro u hu
    rw [hdrop] at hu
    obtain ⟨p, _, hp⟩ := List.mem_map.mp hu
    rw [← hp]
    exact ⟨rfl, rfl⟩

/-- Witness for C3: a batch with one accepted file, one wrong-extension file
and one oversized file yields exactly one item and one upload, and the item is
not one of the rejected files. -/
theorem handleFiles_items_witness :
    ((handleFiles demoFresh [] [fGood, fBadType, fTooBig]).1.drop 0).map UploadedFile.file
      = [fGood]
  ∧ (handleFiles demoFresh [] [fGood, fBadType, fTooBig]).2.map Prod.snd = [fGood]
  ∧ (mkUploadedFile "0" fGood).file ≠ fBadType := by
  have h := handleFiles_items demoFresh [] [fGood, fBadType, fTooBig]
  exact ⟨h.2.1.trans (by decide), h.2.2.1.trans (by decide),
    h.2.2.2.1 fBadType (by decide) (mkUploadedFile "0" fGood) (by decide)⟩

/-- Claim C9: a progress tick replaces only the progress field of the item
whose id matches the tick's file id; every other item, and every other field of
the matching item, is unchanged. -/
theorem progressTick_frame (files : List UploadedFile) (fileId : String) (p : ℚ)
    (i : Nat) (f : UploadedFile) (h : files[i]? = some f) :
    (progressTick files fileId p).length = files.length
  ∧ ∃ g, (progressTick files fileId p)[i]? = some g
      ∧ g.id = f.id ∧ g.file = f.file ∧ g.status = f.status
      ∧ g.parsedData = f.parsedData ∧ g.errorMessage = f.errorMessage
      ∧ (f.id = fileId → g.progress = p)
      ∧ (f.id ≠ fileId → g = f) := by
  refine ⟨by simp [progressTick], ?_⟩
  refine ⟨if f.id = fileId then { f with progress := p } else f, ?_, ?_, ?_, ?_, ?_, ?_, ?_, ?_⟩
  · simp [progressTick, List.getElem?_map, h]
  all_goals by_cases hid : f.id = fileId <;> simp [hid]

/-- Witness for C9: a tick for id "a" over a two-item collection keeps the
collection length and leaves the non-matching item untouched. -/
theorem progressTick_frame_witness :
    (progressTick [demoItemA, demoItemB] "a" 50).length = 2 :=
  (progressTick_frame [demoItemA, demoItemB] "a" 50 0 demoItemA (by decide)).1

/- ---------------- MultiSelectSearch.tsx ---------------- -/

/-- Function `addSearchTerm` (MultiSelectSearch.tsx lines 31-41): trim the input and
append it only when the trimmed string is non-empty and not already present
(case-sensitive `includes`). -/
def addSearchTerm (terms : List String) (currentInput : String) : List String :=
  let trimmedInput := trimString currentInput
  if trimmedInput != "" && !(terms.contains trimmedInput) then terms ++ [trimmedInput]
  else terms

/-- JavaScript `arr.filter((_, i) => keep i)`: keep the elements whose index
satisfies `keep`, indices counted from `n`. -/
def filterWithIndex (keep : Nat → Bool) : List String → Nat → List String
  | [], _ => []
  | a :: l, n =>
    if keep n then a :: filterWithIndex keep l (n + 1) else filterWithIndex keep l (n + 1)

/-- Function `removeSearchTerm` (MultiSelectSearch.tsx lines 43-49):
`searchTerms.filter((_, i) => i !== index)`. -/
def removeSearchTerm (terms : List String) (index : Nat) : List String :=
  filterWithIndex (fun i => i != index) terms 0

/-- A user action on the term set: add, positional remove, or clear-all. -/
inductive TermOp
  | add (raw : String)
  | removeAt (index : Nat)
  | clear
deriving DecidableEq, Repr

/-- Apply one action: `addSearchTerm`, `removeSearchTerm`, or `clearAllTerms`
(which resets the list to `[]`, MultiSelectSearch.tsx lines 51-55). -/
def applyTermOp (terms : List String) : TermOp → List String
  | TermOp.add raw => addSearchTerm terms raw
  | TermOp.removeAt index => removeSearchTerm terms index
  | TermOp.clear => []

/-- Run a sequence of term-set actions from the empty set. -/
def runTermOps (ops : List TermOp) : List String :=
  ops.foldl applyTermOp []

/-- Count the adds in `ops` that actually append (trimmed input non-empty and
not already present), starting from `terms`. -/
def successfulAdds : List String → List TermOp → Nat
  | _, [] => 0
  | terms, op :: ops =>
    (match op with
     | TermOp.add raw =>
        if trimString raw != "" && !(terms.contains (trimString raw)) then 1 else 0
     | _ => 0) + successfulAdds (applyTermOp terms op) ops

/-- Count the removes in `ops` whose index is in range, starting from `terms`. -/
def successfulRemoves : List String → List TermOp → Nat
  | _, [] => 0
  | terms, op :: ops =>
    (match op with
     | TermOp.removeAt index => if index < terms.length then 1 else 0
     | _ => 0) + successfulRemoves (applyTermOp terms op) ops

lemma filterWithIndex_eraseIdx (index : Nat) :
    ∀ (l : List String) (n : Nat),
      filterWithIndex (fun i => i != index) l n
        = if index < n then l else l.eraseIdx (index - n) := by
  intro l
  induction l with
  | nil =>
    intro n
    simp [filterWithIndex]
  | cons a l ih =>
    intro n
    by_cases he : n = index
    · subst he
      simp only [filterWithIndex, bne_self_eq_false, if_false, ih (n + 1)]
      have h1 : n < n + 1 := Nat.lt_succ_self n
      simp [h1]
    · have hb : (n != index) = true := by simpa using he
      simp only [filterWithIndex, hb, if_true, ih (n + 1)]
      by_cases hlt : index < n
      · have h1 : index < n + 1 := Nat.lt_succ_of_lt hlt
        simp [hlt, h1]
      · have hgt : n < index := Nat.lt_of_le_of_ne (Nat.le_of_not_lt hlt) he
        have h1 : ¬ index < n + 1 := by omega
        have h2 : index - n = (index - (n + 1)) + 1 := by omega
        simp [hlt, h1, h2, List.eraseIdx]

lemma removeSearchTerm_eq_eraseIdx (terms : List String) (index : Nat) :
    removeSearchTerm terms index = terms.eraseIdx index := by
  have h := filterWithIndex_eraseIdx index terms 0
  simpa [removeSearchTerm] using h

/-- Invariant of the term set: no duplicates, and every entry is a non-empty
trimmed input. -/
def TermSetInv (terms : List String) : Prop :=
  terms.Nodup ∧ ∀ t ∈ terms, t ≠ "" ∧ ∃ raw, t = trimString raw

lemma termSetInv_apply (terms : List String) (op : TermOp) (h : TermSetInv terms) :
    TermSetInv (applyTermOp terms op) := by
  cases op with
  | add raw =>
    simp only [applyTermOp, addSearchTerm]
    by_cases hc : (trimString raw != "" && !(terms.contains (trimString raw))) = true
    · rw [if_pos hc]
      rw [Bool.and_eq_true] at hc
      have hne : trimString raw ≠ "" := by simpa using hc.1
      have hnm : trimString raw ∉ terms := by simpa using hc.2
      refine ⟨?_, ?_⟩
      · simp only [List.nodup_append, List.nodup_cons, List.not_mem_nil, not_false_iff,
          List.nodup_nil, and_true, true_and]
        exact ⟨h.1, by simpa using hnm⟩
      · intro t ht
        rcases List.mem_append.mp ht with h1 | h1
        · exact h.2 t h1
        · have : t = trimString raw := by simpa using h1
          subst this
          exact ⟨hne, raw, rfl⟩
    · rw [if_neg hc]
      exact h
  | removeAt index =>
    simp only [applyTermOp]
    rw [removeSearchTerm_eq_eraseIdx]
    have hsub := List.eraseIdx_sublist terms index
    exact ⟨List.Nodup.sublist hsub h.1, fun t ht => h.2 t (hsub.subset ht)⟩
  | clear =>
    exact ⟨List.nodup_nil, by simp [applyTermOp]⟩

lemma termSetInv_run (ops : List TermOp) :
    ∀ terms, TermSetInv terms → TermSetInv (ops.foldl applyTermOp terms) := by
  induction ops with
  | nil =>
    intro terms h
    simpa using h
  | cons op ops ih =>
    intro terms h
    exact ih _ (termSetInv_apply terms op h)

lemma termOps_length :
    ∀ (ops : List TermOp), TermOp.clear ∉ ops →
      ∀ terms, (ops.foldl applyTermOp terms).length + successfulRemoves terms ops
        = terms.length + successfulAdds terms ops := by
  intro ops
  induction ops with
  | nil =>
    intro _ terms
    simp [successfulAdds, successfulRemoves]
  | cons op ops ih =>
    intro hclear terms
    have hops : TermOp.clear ∉ ops := fun hm => hclear (List.mem_cons_of_mem _ hm)
    have hx := ih hops (applyTermOp terms op)
    cases op with
    | add raw =>
      have hstep : (applyTermOp terms (TermOp.add raw)).length
          = terms.length
            + (if trimString raw != "" && !(terms.contains (trimString raw)) then 1 else 0) := by
        simp only [applyTermOp, addSearchTerm]
        split
        · simp
        · simp
      simp only [List.foldl_cons, successfulAdds, successfulRemoves] at hx ⊢
      omega
    | removeAt index =>
      have hstep : (applyTermOp terms (TermOp.removeAt index)).length
          + (if index < terms.length then 1 else 0) = terms.length := by
        simp only [applyTermOp]
        rw [removeSearchTerm_eq_eraseIdx]
        by_cases hi : index < terms.length
        · simp only [hi, if_true]
          exact List.length_eraseIdx_add_one hi
        · simp only [hi, if_false]
          rw [List.eraseIdx_eq_self.mpr (Nat.le_of_not_lt hi)]
          omega
      simp only [List.foldl_cons, successfulAdds, successfulRemoves] at hx ⊢
      omega
    | clear =>
      exact absurd (List.mem_cons_self _ _) hclear

/-- Counterexample for C4: on the sequence add "a" then clear, the final term
list is empty although there was one successful add and no successful remove,
so the length does not equal adds minus removes once clear is allowed. -/
theorem termOps_clear_breaks_count :
    runTermOps [TermOp.add "a", TermOp.clear] = []
  ∧ successfulAdds [] [TermOp.add "a", TermOp.clear] = 1
  ∧ successfulRemoves [] [TermOp.add "a", TermOp.clear] = 0
  ∧ (runTermOps [TermOp.add "a", TermOp.clear]).length
      ≠ successfulAdds [] [TermOp.add "a", TermOp.clear]
        - successfulRemoves [] [TermOp.add "a", TermOp.clear] := by
  refine ⟨?_, ?_, ?_, ?_⟩ <;> decide

/-- Claim C4 (amended): after any sequence of add/remove/clear actions from the
empty term set, the term list has no (case-sensitive) duplicates and every
entry is a non-empty trimmed input; and for sequences containing no clear, the
length equals the number of successful adds minus successful removes. -/
theorem termOps_invariant (ops : List TermOp) :
    (runTermOps ops).Nodup
  ∧ (∀ t ∈ runTermOps ops, t ≠ "" ∧ ∃ raw, t = trimString raw)
  ∧ (TermOp.clear ∉ ops →
      successfulRemoves [] ops ≤ successfulAdds [] ops
      ∧ (runTermOps ops).length = successfulAdds [] ops - successfulRemoves [] ops) := by
  have hinv := termSetInv_run ops [] ⟨List.nodup_nil, by simp⟩
  refine ⟨hinv.1, hinv.2, ?_⟩
  intro hclear
  have hlen := termOps_length ops hclear []
  simp only [runTermOps, List.length_nil] at *
  omega

/-- Demo action sequence for the C4 witness: a trimmed add, a duplicate add, a
second distinct add, an in-range remove and an out-of-range remove. -/
def demoTermOps : List TermOp :=
  [TermOp.add " a ", TermOp.add "a", TermOp.add "b", TermOp.removeAt 0, TermOp.removeAt 5]

/-- Witness for C4 (amended): on the clear-free demo sequence, 2 successful
adds and 1 successful remove leave exactly one term. -/
theorem termOps_invariant_witness :
    TermOp.clear ∉ demoTermOps
  ∧ runTermOps demoTermOps = ["b"]
  ∧ successfulAdds [] demoTermOps = 2
  ∧ successfulRemoves [] demoTermOps = 1
  ∧ (runTermOps demoTermOps).length
      = successfulAdds [] demoTermOps - successfulRemoves [] demoTermOps :=
  ⟨by decide, by decide, by decide, by decide,
    ((termOps_invariant demoTermOps).2.2 (by decide)).2⟩

/- ---------------- SearchPage.tsx ---------------- -/

/-- The search mode union `'or' | 'and'` (SearchPage.tsx line 37). -/
inductive SearchMode
  | anyMatch
  | allMatch
deriving DecidableEq, Repr

/-- The `SearchResult` record (SearchPage.tsx lines 5-13). -/
structure SearchResult where
  contact_id : String
  name : String
  email : String
  job_title : String
  full_text : String
  skills : String
  matched_keywords : List String
deriving DecidableEq, Repr

/-- The `HubSpotList` record (SearchPage.tsx lines 21-24). -/
structure HubSpotList where
  listId : String
  name : String
deriving DecidableEq, Repr

/-- All the `useState` cells of the `SearchPage` component (SearchPage.tsx
lines 36-56).  The JavaScript `Set` for selected results is modelled as the
insertion-ordered duplicate-free list a JS `Set` iterates as. -/
structure SearchPageState where
  searchTerms : List String
  searchMode : SearchMode
  results : List SearchResult
  selectedResults : List String
  isLoading : Bool
  error : String
  hasSearched : Bool
  lastSearchTerms : List String
  hubspotLists : List HubSpotList
  isLoadingLists : Bool
  listsError : String
  showAddModal : Bool
  newListName : String
  selectedListId : String
  isAddingToList : Bool
  addSuccess : String
deriving DecidableEq, Repr

/-- The initial state of the component's `useState` cells. -/
def searchPageInit : SearchPageState :=
  { searchTerms := [], searchMode := SearchMode.anyMatch, results := [],
    selectedResults := [], isLoading := false, error := "", hasSearched := false,
    lastSearchTerms := [], hubspotLists := [], isLoadingLists := false,
    listsError := "", showAddModal := false, newListName := "",
    selectedListId := "", isAddingToList := false, addSuccess := "" }

/-- Source `const BACKEND_URL = 'http://127.0.0.1:8000'` (SearchPage.tsx line 58). -/
def BACKEND_URL : String := "http://127.0.0.1:8000"

/-- Outcome of one remote call as the component observes it: a parsed success
payload, a non-ok HTTP response (optional JSON `detail` plus the status text),
a connection failure (a `TypeError` mentioning `fetch`), or an
`AbortSignal.timeout` expiry (a `TimeoutError`). -/
inductive RemoteResult (α : Type)
  | ok (value : α)
  | httpError (detail : Option String) (statusText : String)
  | connectionError
  | timeoutError
deriving DecidableEq, Repr

/-- A remote outcome that is not a parsed success payload. -/
def RemoteResult.isFailure {α : Type} : RemoteResult α → Bool
  | RemoteResult.ok _ => false
  | _ => true

/-- The synchronous head of `handleSearch` (SearchPage.tsx lines 110-126): an
empty term list only sets the validation error and returns; otherwise the
loading flag is raised, the error cleared, the query snapshotted and the
selection emptied, and one request carrying the terms and mode is issued
(returned as `some`). -/
def handleSearchStart (s : SearchPageState) (terms : List String) (mode : SearchMode) :
    SearchPageState × Option (List String × SearchMode) :=
  if terms.length = 0 then
    ({ s with error := "Please add at least one search keyword" }, none)
  else
    ({ s with
        isLoading := true
        error := ""
        hasSearched := true
        lastSearchTerms := terms
        searchTerms := terms
        selectedResults := [] },
      some (terms, mode))

/-- The response half of `handleSearch` (SearchPage.tsx lines 128-156): on ok
the result collection is replaced wholesale; on failure the error is
classified, the results cleared; `finally` lowers the loading flag. -/
def applySearchResponse (s : SearchPageState) : RemoteResult (List SearchResult) → SearchPageState
  | RemoteResult.ok results => { s with results := results, isLoading := false }
  | RemoteResult.httpError _ statusText =>
      { s with
          error := "Search failed: " ++ statusText
          results := []
          isLoading := false }
  | RemoteResult.connectionError =>
      { s with
          error := "Cannot connect to backend server at " ++ BACKEND_URL
            ++ ". Please ensure the backend server is running."
          results := []
          isLoading := false }
  | RemoteResult.timeoutError =>
      { s with
          error := "Search request timed out. Please try again."
          results := []
          isLoading := false }

/-- Function `handleSelectResult` (SearchPage.tsx lines 170-178): toggle one contact id
in the selection set. -/
def handleSelectResult (selected : List String) (contactId : String) : List String :=
  if contactId ∈ selected then selected.erase contactId else selected ++ [contactId]

/-- JavaScript `new Set(array)`: drop duplicates keeping the first occurrence. -/
def jsSetOfList : List String → List String
  | [] => []
  | a :: rest => a :: (jsSetOfList rest).filter (fun x => x ≠ a)

/-- Function `handleSelectAll` (SearchPage.tsx lines 180-186): clear the selection when
everything is selected, else select every result's contact id. -/
def handleSelectAll (selected : List String) (results : List SearchResult) : List String :=
  if selected.length = results.length then []
  else jsSetOfList (results.map SearchResult.contact_id)

/-- Trace of the remote effects performed by one `createNewList` run. -/
structure CreateCalls where
  createCalled : Bool
  addCall : Option (String × List String)
  refreshedLists : Bool
deriving DecidableEq, Repr

/-- Function `createNewList` (SearchPage.tsx lines 188-280): local validation (blank
name, case-insensitive duplicate against the cataloged lists), then the create
call, then the add-contacts call on the returned list id, with the classified
error handling of the catch block and the `finally` reset of the busy flag.
`createResult` and `addResult` are what the two remote calls would return. -/
def createNewList (s : SearchPageState) (createResult : RemoteResult (Option String))
    (addResult : RemoteResult Nat) : SearchPageState × CreateCalls :=
  let trimmedName := trimString s.newListName
  if trimmedName = "" then
    ({ s with error := "Please enter a list name" }, ⟨false, none, false⟩)
  else if s.hubspotLists.any (fun l => lowerString l.name = lowerString trimmedName) then
    ({ s with error := "A list with this name already exists. Please choose a unique name." },
      ⟨false, none, false⟩)
  else
    let s1 := { s with isAddingToList := true, error := "" }
    match createResult with
    | RemoteResult.httpError detail statusText =>
        ({ s1 with
            error := jsOr detail ("Failed to create list: " ++ statusText)
            isAddingToList := false }, ⟨true, none, false⟩)
    | RemoteResult.connectionError =>
        ({ s1 with
            error := "Cannot connect to backend server. Please ensure the backend server is running at "
              ++ BACKEND_URL ++ "."
            isAddingToList := false }, ⟨true, none, false⟩)
    | RemoteResult.timeoutError =>
        ({ s1 with error := "Request timed out. Please try again.", isAddingToList := false },
          ⟨true, none, false⟩)
    | RemoteResult.ok none =>
        ({ s1 with error := "Failed to get list ID from created list", isAddingToList := false },
          ⟨true, none, false⟩)
    | RemoteResult.ok (some listId) =>
        let contactIds := s.selectedResults
        match addResult with
        | RemoteResult.httpError detail statusText =>
            ({ s1 with
                error := jsOr detail ("Failed to add contacts to list: " ++ statusText)
                isAddingToList := false }, ⟨true, some (listId, contactIds), false⟩)
        | RemoteResult.connectionError =>
            ({ s1 with
                error := "Cannot connect to backend server. Please ensure the backend server is running at "
                  ++ BACKEND_URL ++ "."
                isAddingToList := false }, ⟨true, some (listId, contactIds), false⟩)
        | RemoteResult.timeoutError =>
            ({ s1 with error := "Request timed out. Please try again.", isAddingToList := false },
              ⟨true, some (listId, contactIds), false⟩)
        | RemoteResult.ok numAdded =>
            ({ s1 with
                addSuccess := "Successfully created list \"" ++ s.newListName
                  ++ "\" and added " ++ toString numAdded ++ " contacts"
                showAddModal := false
                newListName := ""
                selectedResults := []
                isAddingToList := false },
              ⟨true, some (listId, contactIds), true⟩)

/-- Function `addToExistingList` (SearchPage.tsx lines 282-334): reject locally when no
list id is chosen; otherwise perform the add-contacts call against the chosen
id, with the classified catch-block error handling; the second component is
the `(listId, contactIds)` call made, if any. -/
def addToExistingList (s : SearchPageState) (addResult : RemoteResult Nat) :
    SearchPageState × Option (String × List String) :=
  if s.selectedListId = "" then
    ({ s with error := "Please select a list" }, none)
  else
    let s1 := { s with isAddingToList := true, error := "" }
    let contactIds := s.selectedResults
    match addResult with
    | RemoteResult.httpError detail statusText =>
        ({ s1 with
            error := jsOr detail ("Failed to add contacts to list: " ++ statusText)
            isAddingToList := false }, some (s.selectedListId, contactIds))
    | RemoteResult.connectionError =>
        ({ s1 with
            error := "Cannot connect to backend server. Please ensure the backend server is running at "
              ++ BACKEND_URL ++ "."
            isAddingToList := false }, some (s.selectedListId, contactIds))
    | RemoteResult.timeoutError =>
        ({ s1 with error := "Request timed out. Please try again.", isAddingToList := false },
          some (s.selectedListId, contactIds))
    | RemoteResult.ok numAdded =>
        ({ s1 with
            addSuccess := "Successfully added " ++ toString numAdded ++ " contacts to \""
              ++ jsOr ((s.hubspotLists.find? (fun l => l.listId = s.selectedListId)).map
                    HubSpotList.name) "selected list" ++ "\""
            showAddModal := false
            selectedListId := ""
            selectedResults := []
            isAddingToList := false },
          some (s.selectedListId, contactIds))

/- ---------------- Search orchestrator event model ----------------

The component's search lifecycle as an event system: a commit runs the
synchronous head of `handleSearch` and registers one in-flight request; a
response event applies the response half for a request that is still in
flight; toggle / select-all events run the selection handlers.  The step
function performs exactly what the source code performs — in particular a
response is applied unconditionally, there is no per-request sequence token. -/

structure OrchState where
  page : SearchPageState
  pending : List Nat
  nextId : Nat
deriving DecidableEq, Repr

inductive OrchEvent
  | commit (terms : List String) (mode : SearchMode)
  | response (reqId : Nat) (outcome : RemoteResult (List SearchResult))
  | toggle (contactId : String)
  | selectAll
deriving DecidableEq, Repr

/-- One event of the search page, exactly as the handlers in SearchPage.tsx
apply it. -/
def orchStep (s : OrchState) : OrchEvent → OrchState
  | OrchEvent.commit terms mode =>
    match handleSearchStart s.page terms mode with
    | (p, none) => { s with page := p }
    | (p, some _) =>
        { page := p, pending := s.pending ++ [s.nextId], nextId := s.nextId + 1 }
  | OrchEvent.response reqId outcome =>
    if s.pending.contains reqId then
      { s with
          page := applySearchResponse s.page outcome
          pending := s.pending.erase reqId }
    else s
  | OrchEvent.toggle contactId =>
    { s with page := { s.page with
        selectedResults := handleSelectResult s.page.selectedResults contactId } }
  | OrchEvent.selectAll =>
    { s with page := { s.page with
        selectedResults := handleSelectAll s.page.selectedResults s.page.results } }

def runOrch (s : OrchState) (events : List OrchEvent) : OrchState :=
  events.foldl orchStep s

def orchInit : OrchState :=
  { page := searchPageInit, pending := [], nextId := 0 }

/-- Which events the rendered page can actually emit (SearchPage.tsx /
MultiSelectSearch.tsx): the commit control is disabled while `isLoading`
(MultiSelectSearch.tsx line 140), a response can only arrive for a request
that is in flight, and the row / header checkboxes only exist for rendered
results, which are hidden while loading (SearchPage.tsx lines 491-533). -/
def validEvent (s : OrchState) : OrchEvent → Bool
  | OrchEvent.commit _ _ => !s.page.isLoading
  | OrchEvent.response reqId _ => s.pending.contains reqId
  | OrchEvent.toggle contactId =>
      !s.page.isLoading && (s.page.results.map SearchResult.contact_id).contains contactId
  | OrchEvent.selectAll => !s.page.isLoading

def validTrace : OrchState → List OrchEvent → Bool
  | _, [] => true
  | s, e :: es => validEvent s e && validTrace (orchStep s e) es

/-- Counterexample for C2: committing a search with zero terms from the
initial state changes the error message, so the orchestrator state is not
left entirely unchanged. -/
theorem emptyCommit_changes_error :
    (handleSearchStart searchPageInit [] SearchMode.anyMatch).1 ≠ searchPageInit
  ∧ (handleSearchStart searchPageInit [] SearchMode.anyMatch).1.error
      = "Please add at least one search keyword"
  ∧ searchPageInit.error = "" := by
  refine ⟨?_, ?_, ?_⟩ <;> decide

/-- Claim C2 (amended): committing a search with zero terms issues no request
and leaves results, selection, loading flag, searched flag and last query
unchanged; the error message alone is set to the validation message. -/
theorem emptyCommit_no_request (s : SearchPageState) (mode : SearchMode) :
    (handleSearchStart s [] mode).2 = none
  ∧ (handleSearchStart s [] mode).1.results = s.results
  ∧ (handleSearchStart s [] mode).1.selectedResults = s.selectedResults
  ∧ (handleSearchStart s [] mode).1.isLoading = s.isLoading
  ∧ (handleSearchStart s [] mode).1.hasSearched = s.hasSearched
  ∧ (handleSearchStart s [] mode).1.lastSearchTerms = s.lastSearchTerms
  ∧ (handleSearchStart s [] mode).1.searchTerms = s.searchTerms
  ∧ (handleSearchStart s [] mode).1.error = "Please add at least one search keyword" := by
  simp [handleSearchStart]

lemma mem_jsSetOfList (x : String) : ∀ l : List String, x ∈ jsSetOfList l → x ∈ l := by
  intro l
  induction l with
  | nil =>
    simp [jsSetOfList]
  | cons a rest ih =>
    intro hx
    simp only [jsSetOfList, List.mem_cons] at hx
    rcases hx with h | h
    · exact List.mem_cons.mpr (Or.inl h)
    · exact List.mem_cons.mpr (Or.inr (ih (List.mem_filter.mp h).1))

lemma orchStep_commit_empty (s : OrchState) (terms : List String) (mode : SearchMode)
    (h : terms.length = 0) :
    orchStep s (OrchEvent.commit terms mode)
      = { s with page := { s.page with error := "Please add at least one search keyword" } } := by
  simp [orchStep, handleSearchStart, h]

lemma orchStep_commit_nonempty (s : OrchState) (terms : List String) (mode : SearchMode)
    (h : ¬ terms.length = 0) :
    orchStep s (OrchEvent.commit terms mode)
      = { page := (handleSearchStart s.page terms mode).1
          pending := s.pending ++ [s.nextId]
          nextId := s.nextId + 1 } := by
  simp [orchStep, handleSearchStart, h]

lemma applySearchResponse_selection (p : SearchPageState)
    (outcome : RemoteResult (List SearchResult)) :
    (applySearchResponse p outcome).selectedResults = p.selectedResults := by
  cases outcome <;> rfl

/-- The inductive invariant of the search page under UI-valid events: the
selection only references current results, a pending request forces the
loading flag and an empty selection, at most one request is in flight, and
any in-flight request is the most recently issued one. -/
def OrchInv (s : OrchState) : Prop :=
  (∀ cid ∈ s.page.selectedResults, cid ∈ s.page.results.map SearchResult.contact_id)
  ∧ (s.pending ≠ [] → s.page.isLoading = true ∧ s.page.selectedResults = [])
  ∧ s.pending.length ≤ 1
  ∧ (∀ r ∈ s.pending, r + 1 = s.nextId)

lemma orchInv_step (s : OrchState) (e : OrchEvent) (hI : OrchInv s)
    (hv : validEvent s e = true) : OrchInv (orchStep s e) := by
  obtain ⟨hsel, hpend, hlen, hlast⟩ := hI
  cases e with
  | commit terms mode =>
    have hload : s.page.isLoading = false := by simpa [validEvent] using hv
    have hpnil : s.pending = [] := by
      by_contra hne
      have := (hpend hne).1
      rw [hload] at this
      exact Bool.false_ne_true this
    by_cases hterms : terms.length = 0
    · rw [orchStep_commit_empty s terms mode hterms]
      exact ⟨hsel, fun hne => absurd hpnil (by simpa using hne), hlen, hlast⟩
    · rw [orchStep_commit_nonempty s terms mode hterms]
      have hfields : (handleSearchStart s.page terms mode).1.selectedResults = []
          ∧ (handleSearchStart s.page terms mode).1.isLoading = true := by
        simp [handleSearchStart, hterms]
      refine ⟨?_, ?_, ?_, ?_⟩
      · intro cid hcid
        rw [hfields.1] at hcid
        simp at hcid
      · intro _
        exact ⟨hfields.2, hfields.1⟩
      · simp [hpnil]
      · intro r hr
        rw [hpnil] at hr
        simp at hr
        simp [hr]
  | response reqId outcome =>
    have hmem : s.pending.contains reqId = true := by simpa [validEvent] using hv
    have hmem2 : reqId ∈ s.pending := by simpa using hmem
    have hne : s.pending ≠ [] := by
      intro h0
      rw [h0] at hmem2
      simp at hmem2
    have hsel0 : s.page.selectedResults = [] := (hpend hne).2
    have hpone : s.pending = [reqId] := by
      cases hp : s.pending with
      | nil =>
        rw [hp] at hmem2
        simp at hmem2
      | cons a t =>
        cases t with
        | nil =>
          rw [hp] at hmem2
          simp at hmem2
          simp [hmem2]
        | cons b t2 =>
          rw [hp] at hlen
          simp at hlen
    simp only [orchStep, hmem, if_true]
    refine ⟨?_, ?_, ?_, ?_⟩
    · intro cid hcid
      rw [applySearchResponse_selection, hsel0] at hcid
      simp at hcid
    · intro hne2
      exfalso
      rw [hpone, List.erase_cons_head] at hne2
      exact hne2 rfl
    · rw [hpone, List.erase_cons_head]
      simp
    · intro r hr
      rw [hpone, List.erase_cons_head] at hr
      simp at hr
  | toggle cid =>
    have hv2 : (!s.page.isLoading) = true
        ∧ (s.page.results.map SearchResult.contact_id).contains cid = true := by
      simpa [validEvent, Bool.and_eq_true] using hv
    have hload : s.page.isLoading = false := by simpa using hv2.1
    have hcid : cid ∈ s.page.results.map SearchResult.contact_id := by simpa using hv2.2
    have hpnil : s.pending = [] := by
      by_contra hne
      have := (hpend hne).1
      rw [hload] at this
      exact Bool.false_ne_true this
    refine ⟨?_, ?_, hlen, hlast⟩
    · intro x hx
      simp only [orchStep] at hx ⊢
      unfold handleSelectResult at hx
      by_cases hmem : cid ∈ s.page.selectedResults
      · rw [if_pos hmem] at hx
        exact hsel x (List.mem_of_mem_erase hx)
      · rw [if_neg hmem] at hx
        rcases List.mem_append.mp hx with h1 | h1
        · exact hsel x h1
        · have : x = cid := by simpa using h1
          rw [this]
          exact hcid
    · intro hne
      exact absurd hpnil (by simpa using hne)
  | selectAll =>
    have hload : s.page.isLoading = false := by simpa [validEvent] using hv
    have hpnil : s.pending = [] := by
      by_contra hne
      have := (hpend hne).1
      rw [hload] at this
      exact Bool.false_ne_true this
    refine ⟨?_, ?_, hlen, hlast⟩
    · intro x hx
      simp only [orchStep] at hx ⊢
      unfold handleSelectAll at hx
      by_cases hsz : s.page.selectedResults.length = s.page.results.length
      · rw [if_pos hsz] at hx
        simp at hx
      · rw [if_neg hsz] at hx
        exact mem_jsSetOfList x _ hx
    · intro hne
      exact absurd hpnil (by simpa using hne)

lemma orchInv_init : OrchInv orchInit := by
  refine ⟨?_, ?_, ?_, ?_⟩ <;> simp [orchInit, searchPageInit]

lemma orchInv_run : ∀ (events : List OrchEvent) (s : OrchState), OrchInv s →
    validTrace s events = true → OrchInv (runOrch s events) := by
  intro events
  induction events with
  | nil =>
    intro s h _
    simpa [runOrch] using h
  | cons e es ih =>
    intro s h hv
    have hv2 : validEvent s e = true ∧ validTrace (orchStep s e) es = true := by
      simpa [validTrace, Bool.and_eq_true] using hv
    exact ih (orchStep s e) (orchInv_step s e h hv2.1) hv2.2

/-- Claim C5: over every UI-valid event trace from the initial page state, the
selection set stays a subset of the current result collection's contact
identifiers, and a commit of a nonempty term list always empties the
selection set. -/
theorem selection_subset_invariant (events : List OrchEvent)
    (h : validTrace orchInit events = true) :
    (∀ cid ∈ (runOrch orchInit events).page.selectedResults,
        cid ∈ (runOrch orchInit events).page.results.map SearchResult.contact_id)
  ∧ ∀ (s : OrchState) (terms : List String) (mode : SearchMode), terms ≠ [] →
      (orchStep s (OrchEvent.commit terms mode)).page.selectedResults = [] := by
  refine ⟨(orchInv_run events orchInit orchInv_init h).1, ?_⟩
  intro s terms mode hterms
  have hlen : ¬ terms.length = 0 := by
    simpa [List.length_eq_zero] using hterms
  rw [orchStep_commit_nonempty s terms mode hlen]
  simp [handleSearchStart, hlen]

/-- Demo search result and UI-valid trace for the C5 witness. -/
def demoResult1 : SearchResult :=
  { contact_id := "c1", name := "Jane", email := "", job_title := "", full_text := "",
    skills := "", matched_keywords := [] }

def demoTrace5 : List OrchEvent :=
  [OrchEvent.commit ["react"] SearchMode.anyMatch,
   OrchEvent.response 0 (RemoteResult.ok [demoResult1]),
   OrchEvent.toggle "c1"]

/-- Witness for C5: after a commit, its response and a toggle, the selected id
"c1" is indeed among the displayed results' contact ids. -/
theorem selection_subset_invariant_witness :
    "c1" ∈ (runOrch orchInit demoTrace5).page.results.map SearchResult.contact_id :=
  (selection_subset_invariant demoTrace5 (by decide)).1 "c1" (by decide)

/-- Claim C1 (amended): on every UI-valid trace at most one search request is
in flight, and any in-flight request is the most recently issued one — so the
response the page applies always belongs to the most recent commit.  The code
has no per-request sequence token; overlapping raw handler invocations are
resolved by arrival order (see the counterexample below). -/
theorem single_flight_latest (events : List OrchEvent)
    (h : validTrace orchInit events = true) :
    (runOrch orchInit events).pending.length ≤ 1
  ∧ ∀ r ∈ (runOrch orchInit events).pending, r + 1 = (runOrch orchInit events).nextId :=
  ⟨(orchInv_run events orchInit orchInv_init h).2.2.1,
    (orchInv_run events orchInit orchInv_init h).2.2.2⟩

def demoTrace1 : List OrchEvent := [OrchEvent.commit ["x"] SearchMode.anyMatch]

/-- Witness for C1 (amended): after one valid commit exactly one request is in
flight and it is the most recently issued one. -/
theorem single_flight_latest_witness :
    (runOrch orchInit demoTrace1).pending.length ≤ 1
  ∧ 0 + 1 = (runOrch orchInit demoTrace1).nextId :=
  ⟨(single_flight_latest demoTrace1 (by decide)).1,
    (single_flight_latest demoTrace1 (by decide)).2 0 (by decide)⟩

def resultX : SearchResult :=
  { contact_id := "cX", name := "X", email := "", job_title := "", full_text := "",
    skills := "", matched_keywords := [] }

def resultY : SearchResult :=
  { contact_id := "cY", name := "Y", email := "", job_title := "", full_text := "",
    skills := "", matched_keywords := [] }

/-- Two overlapping commits (the raw `handleSearch` carries no guard and no
sequence token), the later commit's response arriving first. -/
def overlapTrace : List OrchEvent :=
  [OrchEvent.commit ["x"] SearchMode.anyMatch,
   OrchEvent.commit ["y"] SearchMode.anyMatch,
   OrchEvent.response 1 (RemoteResult.ok [resultY]),
   OrchEvent.response 0 (RemoteResult.ok [resultX])]

/-- Counterexample for C1: after both responses arrive, the displayed result
collection is the last-arriving response's — the superseded first commit's
results — not the later commit's, because no request token is compared at
response time. -/
theorem overlapping_commits_last_arrival :
    (runOrch orchInit overlapTrace).page.lastSearchTerms = ["y"]
  ∧ (runOrch orchInit overlapTrace).page.results = [resultX]
  ∧ [resultX] ≠ [resultY] := by
  refine ⟨?_, ?_, ?_⟩ <;> decide

lemma append_ne_empty_left (a b : String) (h : a ≠ "") : a ++ b ≠ "" := by
  intro hc
  apply h
  apply String.ext
  have hd := congrArg String.data hc
  simp only [String.data_append] at hd
  have hnil : a.data = [] := (List.append_eq_nil.mp (by simpa using hd)).1
  simpa using hnil

lemma jsOr_ne_empty (detail : Option String) (fallback : String) (h : fallback ≠ "") :
    jsOr detail fallback ≠ "" := by
  cases detail with
  | none => simpa [jsOr] using h
  | some d =>
    by_cases hd : d = ""
    · rw [hd]
      simpa [jsOr] using h
    · simp only [jsOr, hd, if_false]
      exact hd

/-- Claim C6: `createNewList` with a blank trimmed name, or a name
case-insensitively equal to a cataloged list name, fails locally with a
validation error: no remote call is made and the selection set and catalog
are unchanged. -/
theorem createNewList_local_reject (s : SearchPageState)
    (createResult : RemoteResult (Option String)) (addResult : RemoteResult Nat)
    (h : trimString s.newListName = ""
      ∨ s.hubspotLists.any
          (fun l => lowerString l.name = lowerString (trimString s.newListName)) = true) :
    (createNewList s createResult addResult).2 = ⟨false, none, false⟩
  ∧ (createNewList s createResult addResult).1.selectedResults = s.selectedResults
  ∧ (createNewList s createResult addResult).1.hubspotLists = s.hubspotLists
  ∧ ((createNewList s createResult addResult).1.error = "Please enter a list name"
    ∨ (createNewList s createResult addResult).1.error
        = "A list with this name already exists. Please choose a unique name.") := by
  by_cases hb : trimString s.newListName = ""
  · simp [createNewList, hb]
  · have hdup : s.hubspotLists.any
        (fun l => lowerString l.name = lowerString (trimString s.newListName)) = true :=
      h.resolve_left hb
    simp [createNewList, hb, hdup]

/-- Demo state for the C6 witness: the requested name "Engineering" collides
case-insensitively with the cataloged list "engineering". -/
def demoS6 : SearchPageState :=
  { searchPageInit with
      newListName := "Engineering"
      hubspotLists := [{ listId := "7", name := "engineering" }]
      selectedResults := ["A"] }

/-- Witness for C6: the colliding create performs no remote call and keeps the
selection. -/
theorem createNewList_local_reject_witness :
    (createNewList demoS6 (RemoteResult.ok (some "9")) (RemoteResult.ok 1)).2
      = ⟨false, none, false⟩
  ∧ (createNewList demoS6 (RemoteResult.ok (some "9")) (RemoteResult.ok 1)).1.selectedResults
      = demoS6.selectedResults := by
  have h := createNewList_local_reject demoS6 (RemoteResult.ok (some "9")) (RemoteResult.ok 1)
    (Or.inr (by decide))
  exact ⟨h.1, h.2.1⟩

/-- Claim C7: when local validation passes and both remote calls succeed,
`createNewList` reports a success message carrying the backend's `num_added`
count verbatim (also when it is lower than the number requested), names the
created list, clears the selection set, performed the attach call for the
selection, and refreshes the catalog. -/
theorem createNewList_success (s : SearchPageState) (listId : String) (numAdded : Nat)
    (h1 : ¬ trimString s.newListName = "")
    (h2 : ¬ s.hubspotLists.any
        (fun l => lowerString l.name = lowerString (trimString s.newListName)) = true) :
    (createNewList s (RemoteResult.ok (some listId)) (RemoteResult.ok numAdded)).1.addSuccess
      = "Successfully created list \"" ++ s.newListName ++ "\" and added "
        ++ toString numAdded ++ " contacts"
  ∧ (createNewList s (RemoteResult.ok (some listId))
      (RemoteResult.ok numAdded)).1.selectedResults = []
  ∧ (createNewList s (RemoteResult.ok (some listId)) (RemoteResult.ok numAdded)).2
      = ⟨true, some (listId, s.selectedResults), true⟩
  ∧ ∃ front back,
      (createNewList s (RemoteResult.ok (some listId)) (RemoteResult.ok numAdded)).1.addSuccess
        = front ++ toString numAdded ++ back := by
  refine ⟨?_, ?_, ?_,
    ⟨"Successfully created list \"" ++ s.newListName ++ "\" and added ", " contacts", ?_⟩⟩
    <;> simp [createNewList, h1, h2]

/-- Demo state for the C7 witness: three contacts selected, no colliding list
name. -/
def demoS7 : SearchPageState :=
  { searchPageInit with
      newListName := "Q1 Hires"
      selectedResults := ["A", "B", "C"]
      hubspotLists := [{ listId := "7", name := "Other" }] }

/-- Witness for C7: with three contacts requested and the backend reporting
only 2 added, the success report states the backend count 2, names the list
as created, and the selection set becomes empty. -/
theorem createNewList_success_witness :
    (createNewList demoS7 (RemoteResult.ok (some "99")) (RemoteResult.ok 2)).1.addSuccess
      = "Successfully created list \"Q1 Hires\" and added 2 contacts"
  ∧ (createNewList demoS7 (RemoteResult.ok (some "99")) (RemoteResult.ok 2)).1.selectedResults
      = []
  ∧ (createNewList demoS7 (RemoteResult.ok (some "99")) (RemoteResult.ok 2)).2.refreshedLists
      = true := by
  have h := createNewList_success demoS7 "99" 2 (by decide) (by decide)
  refine ⟨h.1.trans (by decide), h.2.1, by rw [h.2.2.1]⟩

/-- Claim C8: `addToExistingList` with no chosen list id rejects locally — no
remote call, only the validation error is set; with a chosen id and a failing
remote outcome a non-empty classified error is surfaced and the selection set
keeps exactly its prior membership. -/
theorem addToExistingList_error (s : SearchPageState) (addResult : RemoteResult Nat)
    (h : s.selectedListId = "" ∨ addResult.isFailure = true) :
    (addToExistingList s addResult).1.selectedResults = s.selectedResults
  ∧ (s.selectedListId = "" →
      (addToExistingList s addResult).2 = none
      ∧ (addToExistingList s addResult).1 = { s with error := "Please select a list" })
  ∧ (¬ s.selectedListId = "" → (addToExistingList s addResult).1.error ≠ "") := by
  by_cases hid : s.selectedListId = ""
  · simp [addToExistingList, hid]
  · rcases h with h | h
    · exact absurd h hid
    · cases addResult with
      | ok n =>
        simp [RemoteResult.isFailure] at h
      | httpError detail statusText =>
        refine ⟨by simp [addToExistingList, hid], fun hc => absurd hc hid, fun _ => ?_⟩
        have he : (addToExistingList s (RemoteResult.httpError detail statusText)).1.error
            = jsOr detail ("Failed to add contacts to list: " ++ statusText) := by
          simp [addToExistingList, hid]
        rw [he]
        exact jsOr_ne_empty _ _ (append_ne_empty_left _ _ (by decide))
      | connectionError =>
        refine ⟨by simp [addToExistingList, hid], fun hc => absurd hc hid, fun _ => ?_⟩
        have he : (addToExistingList s RemoteResult.connectionError).1.error
            = "Cannot connect to backend server. Please ensure the backend server is running at "
              ++ BACKEND_URL ++ "." := by
          simp [addToExistingList, hid]
        rw [he]
        decide
      | timeoutError =>
        refine ⟨by simp [addToExistingList, hid], fun hc => absurd hc hid, fun _ => ?_⟩
        have he : (addToExistingList s RemoteResult.timeoutError).1.error
            = "Request timed out. Please try again." := by
          simp [addToExistingList, hid]
        rw [he]
        decide

/-- Demo states for the C8 witness: one with a chosen list id, one without. -/
def demoS8 : SearchPageState :=
  { searchPageInit with
      selectedListId := "5"
      selectedResults := ["A", "B"] }

def demoS8b : SearchPageState := { searchPageInit with selectedResults := ["A"] }

/-- Witness for C8: an unreachable backend surfaces a non-empty error and
keeps the selection; with no chosen list id no remote call is made. -/
theorem addToExistingList_error_witness :
    (addToExistingList demoS8 (RemoteResult.connectionError : RemoteResult Nat)).1.selectedResults
      = demoS8.selectedResults
  ∧ (addToExistingList demoS8 (RemoteResult.connectionError : RemoteResult Nat)).1.error ≠ ""
  ∧ (addToExistingList demoS8b (RemoteResult.ok 1)).2 = none := by
  have h := addToExistingList_error demoS8 RemoteResult.connectionError (Or.inr rfl)
  have hb := addToExistingList_error demoS8b (RemoteResult.ok 1) (Or.inl rfl)
  exact ⟨h.1, h.2.2 (by decide), (hb.2.1 rfl).1⟩

end CVFrontend
